import Mathlib

/-!
Shallow embedding of `src/visualize_predictions.py`.

The script runs a point-cloud classifier on test samples and renders
side-by-side 3D scatter plots of ground-truth versus predicted per-point
attention classes.  We embed:

* the prediction pipeline `softmax(dim=1)` followed by `argmax(dim=1)`
  (lines 17-18), over the reals;
* the accuracy computation `np.mean(pred_classes == ground_truth)`
  (line 74), over the rationals;
* the color arrays `[colors[int(c)] for c in labels]` with Python's
  negative-index semantics (lines 24, 32-34, 46-48);
* the per-class count report `np.sum(labels == i)` for `i in range(5)`
  (lines 85-89);
* the cubic bounding box for both subplots (lines 53-71), over ℚ;
* the save/show tail of `visualize_prediction` (lines 79-82) and the
  checkpoint-discovery prefix of `main` (lines 93-137) as event traces.
-/

namespace VisualizePredictions

/-! ### Python list indexing and `max` builtins -/

/-- Python list indexing `xs[i]` for an integer index: indices in
`[0, len)` read from the front, indices in `[-len, 0)` wrap around from
the end, anything else raises `IndexError` (modelled as `none`). -/
def pythonGet {α : Type} (xs : List α) (i : ℤ) : Option α :=
  if 0 ≤ i ∧ i < (xs.length : ℤ) then
    xs.get? i.toNat
  else if -(xs.length : ℤ) ≤ i ∧ i < 0 then
    xs.get? ((xs.length : ℤ) + i).toNat
  else
    none

/-- One step of Python's `max` builtin: keep the accumulator unless the
next element is strictly larger (so ties keep the earliest element). -/
def pyMaxStep {α : Type} [LinearOrder α] (acc b : α) : α :=
  if acc < b then b else acc

/-- Python's `max` over a non-empty list (the empty case is unreachable in
the script, guarded by the `if not timestamp_dirs` check; we return the
first element's type default via the head). -/
def pyMax {α : Type} [LinearOrder α] : List α → Option α
  | [] => none
  | a :: t => some (t.foldl pyMaxStep a)

/-! ### Colors and class names (lines 24-25) -/

/-- `colors = ['blue', 'green', 'yellow', 'orange', 'red']` -/
def colors : List String := ["blue", "green", "yellow", "orange", "red"]

/-- `class_names = ['No attention', 'Low', 'Medium-low', 'Medium-high', 'High']` -/
def class_names : List String :=
  ["No attention", "Low", "Medium-low", "Medium-high", "High"]

/-- The color array `[colors[int(c)] for c in labels]` (lines 33, 47): a
list comprehension that indexes the fixed color table with each label,
failing (`none`) if any lookup raises `IndexError`. -/
def buildColorArray : List ℤ → Option (List String)
  | [] => some []
  | c :: rest => do
      let col ← pythonGet colors c
      let cols ← buildColorArray rest
      pure (col :: cols)

/-! ### Accuracy (line 74) -/

/-- Elementwise `pred_classes == ground_truth`: a 0/1 rational array. -/
def npEqArray (a b : List ℤ) : List ℚ :=
  List.zipWith (fun x y => if x = y then (1 : ℚ) else 0) a b

/-- `np.mean` of a rational array. -/
def npMean (l : List ℚ) : ℚ := l.sum / (l.length : ℚ)

/-- `accuracy = np.mean(pred_classes == ground_truth)` (line 74). -/
def accuracy (pred ground_truth : List ℤ) : ℚ :=
  npMean (npEqArray pred ground_truth)

/-- Number of positions where the two label lists agree. -/
def matchCount (pred ground_truth : List ℤ) : ℕ :=
  (List.zip pred ground_truth).countP (fun p => p.1 = p.2)

/-! ### Per-class counts (lines 85-89) -/

/-- `np.sum(labels == i)`: the number of entries of `labels` equal to `i`. -/
def classCount (labels : List ℤ) (i : ℤ) : ℕ :=
  labels.count i

/-! ### Cubic bounding box (lines 53-71)

A sample's point array `points` has shape `N × 3`; we embed it as a list
of coordinate triples over ℚ.  `points[:, 0]`, `points[:, 1]`,
`points[:, 2]` are the three coordinate columns. -/

/-- The `x` column `points[:, 0]`. -/
def colX (points : List (ℚ × ℚ × ℚ)) : List ℚ := points.map (fun p => p.1)

/-- The `y` column `points[:, 1]`. -/
def colY (points : List (ℚ × ℚ × ℚ)) : List ℚ := points.map (fun p => p.2.1)

/-- The `z` column `points[:, 2]`. -/
def colZ (points : List (ℚ × ℚ × ℚ)) : List ℚ := points.map (fun p => p.2.2)

/-- numpy `.max()` of an array (the script only applies it to non-empty
arrays; on the unreachable empty array we return 0). -/
def npMax : List ℚ → ℚ
  | [] => 0
  | a :: t => t.foldl max a

/-- numpy `.min()` of an array. -/
def npMin : List ℚ → ℚ
  | [] => 0
  | a :: t => t.foldl min a

/-- `max_range = np.array([xspan, yspan, zspan]).max() / 2.0` (lines 59-63). -/
def max_range (points : List (ℚ × ℚ × ℚ)) : ℚ :=
  (npMax [npMax (colX points) - npMin (colX points),
          npMax (colY points) - npMin (colY points),
          npMax (colZ points) - npMin (colZ points)]) / 2

/-- `mid_x = (points[:, 0].max() + points[:, 0].min()) * 0.5` (line 65). -/
def mid_x (points : List (ℚ × ℚ × ℚ)) : ℚ :=
  (npMax (colX points) + npMin (colX points)) * 0.5

/-- `mid_y = (points[:, 1].max() + points[:, 1].min()) * 0.5` (line 66). -/
def mid_y (points : List (ℚ × ℚ × ℚ)) : ℚ :=
  (npMax (colY points) + npMin (colY points)) * 0.5

/-- `mid_z = (points[:, 2].max() + points[:, 2].min()) * 0.5` (line 67). -/
def mid_z (points : List (ℚ × ℚ × ℚ)) : ℚ :=
  (npMax (colZ points) + npMin (colZ points)) * 0.5

/-- The axis limits set on one 3D subplot. -/
structure AxisLimits where
  xlim : ℚ × ℚ
  ylim : ℚ × ℚ
  zlim : ℚ × ℚ
  deriving DecidableEq, Repr

/-- The limits the loop body (lines 59-71) sets on one axis:
`set_xlim(mid_x - max_range, mid_x + max_range)` and likewise for y, z. -/
def setAxisLimits (points : List (ℚ × ℚ × ℚ)) : AxisLimits :=
  { xlim := (mid_x points - max_range points, mid_x points + max_range points)
    ylim := (mid_y points - max_range points, mid_y points + max_range points)
    zlim := (mid_z points - max_range points, mid_z points + max_range points) }

/-- `for ax in [ax1, ax2]:` applies the same limit computation to the
ground-truth subplot and the prediction subplot (lines 53-71). -/
def figureAxes (points : List (ℚ × ℚ × ℚ)) : AxisLimits × AxisLimits :=
  (setAxisLimits points, setAxisLimits points)

/-! ### Save/show tail of `visualize_prediction` (lines 77-82) -/

/-- Observable plotting side effects of the tail of `visualize_prediction`. -/
inductive PlotEvent where
  | tightLayout : PlotEvent
  | savefig (path : String) (dpi : ℕ) (bbox_inches_tight : Bool) : PlotEvent
  | showPlot : PlotEvent
  deriving DecidableEq, Repr

/-- Python truthiness of the `save_path` argument (`None` and the empty
string are falsy). -/
def pyTruthy : Option String → Bool
  | none => false
  | some s => decide (s ≠ "")

/-- Event trace of lines 77-82: `plt.tight_layout()`, then
`if save_path: plt.savefig(save_path, dpi=300, bbox_inches='tight')`,
then `plt.show()`. -/
def plotTail (save_path : Option String) : List PlotEvent :=
  [PlotEvent.tightLayout] ++
    (match save_path with
     | some p => if p ≠ "" then [PlotEvent.savefig p 300 true] else []
     | none => []) ++
    [PlotEvent.showPlot]

/-- Whether a plot event writes a file. -/
def PlotEvent.isSavefig : PlotEvent → Bool
  | .savefig _ _ _ => true
  | _ => false

/-! ### Driver routine `main` (lines 91-138) as an event trace -/

/-- Observable steps of `main`, in program order. -/
inductive MainEvent where
  | loadConfig : MainEvent
  | initModel : MainEvent
  | listCheckpointDirs : MainEvent
  | raiseNotFound (msg : String) : MainEvent
  | loadCheckpoint (path : String) : MainEvent
  | loadStateDict : MainEvent
  | buildDataset : MainEvent
  | buildLoaders : MainEvent
  | visualize (form_type form_number save_path : String) : MainEvent
  deriving DecidableEq, Repr

/-- Event trace of `main`: load config, build the model, list the
checkpoint subdirectories; if none exist raise
`FileNotFoundError("No checkpoint directories found")`; otherwise pick
`max(timestamp_dirs)`, load `best_model.pt` from it, restore the state
dict, build the dataset and the loaders, and visualize each test sample
with save path `visualization_<form_type>_model_<form_number>.png`. -/
def mainTrace (checkpoint_dir : String) (timestamp_dirs : List String)
    (samples : List (String × String)) : List MainEvent :=
  [MainEvent.loadConfig, MainEvent.initModel, MainEvent.listCheckpointDirs] ++
    (match timestamp_dirs with
     | [] => [MainEvent.raiseNotFound "No checkpoint directories found"]
     | d :: rest =>
        [MainEvent.loadCheckpoint
            (checkpoint_dir ++ "/" ++ rest.foldl pyMaxStep d ++ "/best_model.pt"),
         MainEvent.loadStateDict, MainEvent.buildDataset, MainEvent.buildLoaders] ++
          samples.map (fun s =>
            MainEvent.visualize s.1 s.2
              ("visualization_" ++ s.1 ++ "_model_" ++ s.2 ++ ".png")))

/-- Whether a main event loads a checkpoint file. -/
def MainEvent.isLoadCheckpoint : MainEvent → Bool
  | .loadCheckpoint _ => true
  | _ => false

/-- Whether a main event constructs the dataset or its loaders. -/
def MainEvent.isDatasetStep : MainEvent → Bool
  | .buildDataset => true
  | .buildLoaders => true
  | _ => false

/-- Whether a main event runs inference / produces a visualization. -/
def MainEvent.isVisualize : MainEvent → Bool
  | .visualize _ _ _ => true
  | _ => false

/-! ### Prediction pipeline (lines 14-18), over the reals

`outputs = model(data)` has shape `N × C` (one row of class logits per
point; the script's model has `C = 5` classes).
`predictions = torch.softmax(outputs, dim=1)` normalizes each row, and
`pred_classes = predictions.argmax(dim=1)` takes the per-row index of
the first maximal entry. -/

/-- `torch.argmax` over a list of values: index of the first maximal
element (ties keep the earlier index). -/
def argmaxAux {α : Type} [LinearOrder α] : List α → ℕ × α → ℕ → ℕ
  | [], best, _ => best.1
  | a :: l, best, i =>
      if best.2 < a then argmaxAux l (i, a) (i + 1) else argmaxAux l best (i + 1)

/-- Index of the first maximal element of a list (0 on the empty list,
which torch rejects; the script's class dimension has size 5). -/
def argmaxList {α : Type} [LinearOrder α] : List α → ℕ
  | [] => 0
  | a :: l => argmaxAux l (0, a) 1

/-- Per-row argmax of a logits row. -/
noncomputable def argmaxRow {k : ℕ} (v : Fin k → ℝ) : ℕ :=
  argmaxList (List.ofFn v)

/-- `torch.softmax(outputs, dim=1)`: each row `p` is normalized to
`exp(outputs[p][c]) / Σ_j exp(outputs[p][j])` (line 17). -/
noncomputable def softmaxDim1 {n k : ℕ} (outputs : Fin n → Fin k → ℝ) :
    Fin n → Fin k → ℝ :=
  fun p c => Real.exp (outputs p c) / ∑ j, Real.exp (outputs p j)

/-- `.argmax(dim=1)`: per-row index of the first maximal entry. -/
noncomputable def argmaxDim1 {n k : ℕ} (t : Fin n → Fin k → ℝ) : Fin n → ℕ :=
  fun p => argmaxRow (t p)

/-- `pred_classes = torch.softmax(outputs, dim=1).argmax(dim=1)`
(lines 17-18). -/
noncomputable def pred_classes {n k : ℕ} (outputs : Fin n → Fin k → ℝ) :
    Fin n → ℕ :=
  argmaxDim1 (softmaxDim1 outputs)

/-- Spec-side description of the predicted class of one point: apply
softmax to that point's logits row, then take the argmax of the
resulting probabilities. -/
noncomputable def specPredClass {n k : ℕ} (outputs : Fin n → Fin k → ℝ)
    (p : Fin n) : ℕ :=
  argmaxRow (fun c => Real.exp (outputs p c) / ∑ j, Real.exp (outputs p j))

/-! ## Helper lemmas -/

theorem sum_npEqArray (a b : List ℤ) : (npEqArray a b).sum = (matchCount a b : ℚ) := by
  induction a generalizing b with
  | nil => simp [npEqArray, matchCount]
  | cons x xs ih =>
    cases b with
    | nil => simp [npEqArray, matchCount]
    | cons y ys =>
      simp only [npEqArray, List.zipWith_cons_cons, List.sum_cons, matchCount,
        List.zip_cons_cons, List.countP_cons] at *
      rw [ih ys]
      by_cases h : x = y
      · simp [h, add_comm]
      · simp [h]

theorem matchCount_le (a b : List ℤ) : matchCount a b ≤ min a.length b.length := by
  calc matchCount a b ≤ (List.zip a b).length := List.countP_le_length _
    _ = min a.length b.length := by simp

/-! ## Claim theorems -/

/-- C1: for every sample with `N ≥ 1` points, the accuracy reported in the
figure title (`np.mean(pred_classes == ground_truth)`, line 74) equals the
number of points whose predicted class equals the ground-truth class
divided by `N`, and lies in `[0, 1]`. -/
theorem claim_C1 (pred ground_truth : List ℤ)
    (hlen : pred.length = ground_truth.length) (hN : 1 ≤ ground_truth.length) :
    accuracy pred ground_truth =
      (matchCount pred ground_truth : ℚ) / (ground_truth.length : ℚ) ∧
    0 ≤ accuracy pred ground_truth ∧ accuracy pred ground_truth ≤ 1 := by
  have hlen' : (npEqArray pred ground_truth).length = ground_truth.length := by
    simp [npEqArray, hlen]
  have hacc : accuracy pred ground_truth =
      (matchCount pred ground_truth : ℚ) / (ground_truth.length : ℚ) := by
    rw [accuracy, npMean, sum_npEqArray, hlen']
  have hle : matchCount pred ground_truth ≤ ground_truth.length := by
    have := matchCount_le pred ground_truth
    omega
  have hNpos : (0 : ℚ) < (ground_truth.length : ℚ) := by
    exact_mod_cast Nat.lt_of_lt_of_le Nat.zero_lt_one hN
  refine ⟨hacc, ?_, ?_⟩
  · rw [hacc]
    exact div_nonneg (Nat.cast_nonneg _) (Nat.cast_nonneg _)
  · rw [hacc, div_le_one hNpos]
    exact_mod_cast hle

/-- Witness for C1 at `pred = [0, 1]`, `ground_truth = [0, 2]`. -/
theorem claim_C1_witness :
    accuracy [0, 1] [0, 2] =
      (matchCount [0, 1] [0, 2] : ℚ) / (([0, 2] : List ℤ).length : ℚ) ∧
    0 ≤ accuracy [0, 1] [0, 2] ∧ accuracy [0, 1] [0, 2] ≤ 1 :=
  claim_C1 [0, 1] [0, 2] (by decide) (by decide)

theorem pythonGet_colors_of_range (l : ℤ) (h0 : 0 ≤ l) (h4 : l ≤ 4) :
    ∃ c, pythonGet colors l = some c ∧ c ∈ colors := by
  interval_cases l <;> exact ⟨_, rfl, by decide⟩

theorem buildColorArray_ok (labels : List ℤ) (h : ∀ l ∈ labels, 0 ≤ l ∧ l ≤ 4) :
    ∃ cs, buildColorArray labels = some cs ∧ cs.length = labels.length ∧
      ∀ c ∈ cs, c ∈ colors := by
  induction labels with
  | nil => exact ⟨[], rfl, rfl, by simp⟩
  | cons c rest ih =>
    obtain ⟨hc0, hc4⟩ := h c (List.mem_cons_self _ _)
    obtain ⟨col, hcol, hmem⟩ := pythonGet_colors_of_range c hc0 hc4
    obtain ⟨cs, hcs, hlen, hall⟩ := ih (fun l hl => h l (List.mem_cons_of_mem _ hl))
    refine ⟨col :: cs, ?_, by simp [hlen], ?_⟩
    · simp [buildColorArray, hcol, hcs]
    · intro x hx
      rcases List.mem_cons.1 hx with rfl | hx
      · exact hmem
      · exact hall x hx

/-- C3: when all ground-truth and predicted labels lie in `{0..4}`, the two
color arrays `[colors[int(c)] for c in labels]` (lines 33, 47) are built
without any out-of-bounds lookup, each has length `N`, and every entry is
one of the five fixed colors. -/
theorem claim_C3 (ground_truth preds : List ℤ)
    (hg : ∀ l ∈ ground_truth, 0 ≤ l ∧ l ≤ 4)
    (hp : ∀ l ∈ preds, 0 ≤ l ∧ l ≤ 4) :
    ∃ gcs pcs,
      buildColorArray ground_truth = some gcs ∧
      buildColorArray preds = some pcs ∧
      gcs.length = ground_truth.length ∧ pcs.length = preds.length ∧
      (∀ c ∈ gcs, c ∈ colors) ∧ (∀ c ∈ pcs, c ∈ colors) := by
  obtain ⟨gcs, h1, h2, h3⟩ := buildColorArray_ok ground_truth hg
  obtain ⟨pcs, h4, h5, h6⟩ := buildColorArray_ok preds hp
  exact ⟨gcs, pcs, h1, h4, h2, h5, h3, h6⟩

/-- Witness for C3 at `ground_truth = [0, 1, 2, 3, 4]`, `preds = [4, 3, 0, 1, 2]`. -/
theorem claim_C3_witness :
    ∃ gcs pcs,
      buildColorArray [0, 1, 2, 3, 4] = some gcs ∧
      buildColorArray [4, 3, 0, 1, 2] = some pcs ∧
      gcs.length = ([0, 1, 2, 3, 4] : List ℤ).length ∧
      pcs.length = ([4, 3, 0, 1, 2] : List ℤ).length ∧
      (∀ c ∈ gcs, c ∈ colors) ∧ (∀ c ∈ pcs, c ∈ colors) :=
  claim_C3 [0, 1, 2, 3, 4] [4, 3, 0, 1, 2] (by decide) (by decide)

/-- C10: a label in `{-5..-1}` does not make the color lookup fail; Python's
negative indexing silently wraps to a color counted from the end of the
fixed color list (`colors[5 + l]`), e.g. label `-1` yields `"red"`. -/
theorem claim_C10 (l : ℤ) (h1 : -5 ≤ l) (h2 : l ≤ -1) :
    pythonGet colors l = colors.get? ((5 : ℤ) + l).toNat ∧
    (∃ c, pythonGet colors l = some c ∧ c ∈ colors) ∧
    pythonGet colors (-1) = some "red" := by
  interval_cases l <;> exact ⟨by decide, ⟨_, rfl, by decide⟩, by decide⟩

/-- Witness for C10 at `l = -1`. -/
theorem claim_C10_witness :
    pythonGet colors (-1) = colors.get? ((5 : ℤ) + (-1)).toNat ∧
    (∃ c, pythonGet colors (-1) = some c ∧ c ∈ colors) ∧
    pythonGet colors (-1) = some "red" :=
  claim_C10 (-1) (by decide) (by decide)

theorem sum_classCount_range (labels : List ℤ) (h : ∀ l ∈ labels, 0 ≤ l ∧ l ≤ 4) :
    (∑ i ∈ Finset.range 5, classCount labels (i : ℤ)) = labels.length := by
  induction labels with
  | nil => simp [classCount]
  | cons c rest ih =>
    have hc := h c (List.mem_cons_self _ _)
    have hrest := ih (fun l hl => h l (List.mem_cons_of_mem _ hl))
    have hcount : ∀ i : ℤ, classCount (c :: rest) i =
        classCount rest i + if c = i then 1 else 0 := by
      intro i
      simp [classCount, List.count_cons]
    simp only [hcount]
    rw [Finset.sum_add_distrib, hrest]
    have hone : (∑ i ∈ Finset.range 5, if c = (i : ℤ) then 1 else 0) = 1 := by
      obtain ⟨h0, h4⟩ := hc
      interval_cases c <;> decide
    rw [hone]
    simp

/-- C4: when all labels lie in `{0..4}`, the per-class report's five
ground-truth counts (`np.sum(ground_truth == i)`, line 88) sum to `N` and
its five predicted counts (line 89) sum to `N`; for
`ground_truth = [0,1,2,3,4]` with identical predictions every class has
count 1 on both sides and the accuracy is 100%. -/
theorem claim_C4 (ground_truth preds : List ℤ)
    (hlen : preds.length = ground_truth.length)
    (hg : ∀ l ∈ ground_truth, 0 ≤ l ∧ l ≤ 4)
    (hp : ∀ l ∈ preds, 0 ≤ l ∧ l ≤ 4) :
    (∑ i ∈ Finset.range 5, classCount ground_truth (i : ℤ)) = ground_truth.length ∧
    (∑ i ∈ Finset.range 5, classCount preds (i : ℤ)) = ground_truth.length ∧
    (ground_truth = [0, 1, 2, 3, 4] → preds = [0, 1, 2, 3, 4] →
      (∀ i ∈ Finset.range 5,
        classCount ground_truth (i : ℤ) = 1 ∧ classCount preds (i : ℤ) = 1) ∧
      accuracy preds ground_truth = 1) := by
  refine ⟨sum_classCount_range _ hg, ?_, ?_⟩
  · rw [sum_classCount_range _ hp, hlen]
  · rintro rfl rfl
    refine ⟨by decide, ?_⟩
    norm_num [accuracy, npMean, npEqArray]

/-- Witness for C4 at `ground_truth = preds = [0, 1, 2, 3, 4]`. -/
theorem claim_C4_witness :
    (∑ i ∈ Finset.range 5, classCount [0, 1, 2, 3, 4] (i : ℤ)) =
      ([0, 1, 2, 3, 4] : List ℤ).length ∧
    (∑ i ∈ Finset.range 5, classCount [0, 1, 2, 3, 4] (i : ℤ)) =
      ([0, 1, 2, 3, 4] : List ℤ).length ∧
    (([0, 1, 2, 3, 4] : List ℤ) = [0, 1, 2, 3, 4] →
      ([0, 1, 2, 3, 4] : List ℤ) = [0, 1, 2, 3, 4] →
      (∀ i ∈ Finset.range 5,
        classCount [0, 1, 2, 3, 4] (i : ℤ) = 1 ∧ classCount [0, 1, 2, 3, 4] (i : ℤ) = 1) ∧
      accuracy [0, 1, 2, 3, 4] [0, 1, 2, 3, 4] = 1) :=
  claim_C4 [0, 1, 2, 3, 4] [0, 1, 2, 3, 4] (by decide) (by decide) (by decide)

theorem le_pyMaxStep_left {α : Type} [LinearOrder α] (a b : α) : a ≤ pyMaxStep a b := by
  unfold pyMaxStep
  split
  · exact le_of_lt (by assumption)
  · exact le_refl a

theorem le_pyMaxStep_right {α : Type} [LinearOrder α] (a b : α) : b ≤ pyMaxStep a b := by
  unfold pyMaxStep
  split
  · exact le_refl b
  · exact le_of_not_lt (by assumption)

theorem pyMaxStep_eq_or {α : Type} [LinearOrder α] (a b : α) :
    pyMaxStep a b = a ∨ pyMaxStep a b = b := by
  unfold pyMaxStep
  split
  · exact Or.inr rfl
  · exact Or.inl rfl

theorem foldl_pyMaxStep_mem {α : Type} [LinearOrder α] (t : List α) (a : α) :
    t.foldl pyMaxStep a = a ∨ t.foldl pyMaxStep a ∈ t := by
  induction t generalizing a with
  | nil => exact Or.inl rfl
  | cons x xs ih =>
    rw [List.foldl_cons]
    rcases ih (pyMaxStep a x) with h | h
    · rcases pyMaxStep_eq_or a x with h2 | h2
      · exact Or.inl (h.trans h2)
      · exact Or.inr (by rw [h, h2]; exact List.mem_cons_self _ _)
    · exact Or.inr (List.mem_cons_of_mem _ h)

theorem le_foldl_pyMaxStep_init {α : Type} [LinearOrder α] (t : List α) (a : α) :
    a ≤ t.foldl pyMaxStep a := by
  induction t generalizing a with
  | nil => exact le_refl a
  | cons x xs ih =>
    rw [List.foldl_cons]
    exact le_trans (le_pyMaxStep_left a x) (ih _)

theorem le_foldl_pyMaxStep_of_mem {α : Type} [LinearOrder α] (t : List α) (a b : α)
    (hb : b ∈ t) : b ≤ t.foldl pyMaxStep a := by
  induction t generalizing a with
  | nil => cases hb
  | cons x xs ih =>
    rw [List.foldl_cons]
    rcases List.mem_cons.1 hb with rfl | hbt
    · exact le_trans (le_pyMaxStep_right a b) (le_foldl_pyMaxStep_init xs _)
    · exact ih _ hbt

/-- C5: for a non-empty list of checkpoint subdirectory names,
`latest_dir = max(timestamp_dirs)` (line 106) is a member of the list and
is greater than or equal to every name in the list (the lexicographic
maximum); on `["2023-01-01", "2023-06-01", "2022-12-31"]` it selects
`"2023-06-01"`. -/
theorem claim_C5 (timestamp_dirs : List String) (h : timestamp_dirs ≠ []) :
    (∃ latest_dir, pyMax timestamp_dirs = some latest_dir ∧
      latest_dir ∈ timestamp_dirs ∧ ∀ d ∈ timestamp_dirs, d ≤ latest_dir) ∧
    pyMax ["2023-01-01", "2023-06-01", "2022-12-31"] = some "2023-06-01" := by
  constructor
  · match timestamp_dirs, h with
    | a :: t, _ =>
      refine ⟨t.foldl pyMaxStep a, rfl, ?_, ?_⟩
      · rcases foldl_pyMaxStep_mem t a with h1 | h1
        · rw [h1]; exact List.mem_cons_self _ _
        · exact List.mem_cons_of_mem _ h1
      · intro d hd
        rcases List.mem_cons.1 hd with rfl | hdt
        · exact le_foldl_pyMaxStep_init t d
        · exact le_foldl_pyMaxStep_of_mem t a d hdt
  · have hlt1 : ("2023-01-01" : String) < "2023-06-01" := by
      rw [String.lt_iff_toList_lt]; decide
    have hlt2 : ¬ ("2023-06-01" : String) < "2022-12-31" := by
      rw [String.lt_iff_toList_lt]; decide
    have e1 : pyMaxStep "2023-01-01" "2023-06-01" = "2023-06-01" := by
      unfold pyMaxStep
      exact if_pos hlt1
    have e2 : pyMaxStep "2023-06-01" "2022-12-31" = "2023-06-01" := by
      unfold pyMaxStep
      exact if_neg hlt2
    calc pyMax ["2023-01-01", "2023-06-01", "2022-12-31"]
        = some (pyMaxStep (pyMaxStep "2023-01-01" "2023-06-01") "2022-12-31") := rfl
      _ = some "2023-06-01" := by rw [e1, e2]

/-- Witness for C5 at the list `["2023-01-01", "2023-06-01", "2022-12-31"]`. -/
theorem claim_C5_witness :
    (∃ latest_dir, pyMax ["2023-01-01", "2023-06-01", "2022-12-31"] = some latest_dir ∧
      latest_dir ∈ ["2023-01-01", "2023-06-01", "2022-12-31"] ∧
      ∀ d ∈ ["2023-01-01", "2023-06-01", "2022-12-31"], d ≤ latest_dir) ∧
    pyMax ["2023-01-01", "2023-06-01", "2022-12-31"] = some "2023-06-01" :=
  claim_C5 ["2023-01-01", "2023-06-01", "2022-12-31"] (by decide)

/-- C6: with zero checkpoint subdirectories, `main` raises
`FileNotFoundError("No checkpoint directories found")` (lines 104-105)
right after listing the checkpoint root, before loading any checkpoint,
constructing any dataset, or visualizing any sample. -/
theorem claim_C6 (checkpoint_dir : String) (samples : List (String × String)) :
    mainTrace checkpoint_dir [] samples =
      [MainEvent.loadConfig, MainEvent.initModel, MainEvent.listCheckpointDirs,
       MainEvent.raiseNotFound "No checkpoint directories found"] ∧
    ∀ e ∈ mainTrace checkpoint_dir [] samples,
      e.isLoadCheckpoint = false ∧ e.isDatasetStep = false ∧
      e.isVisualize = false ∧ e ≠ MainEvent.loadStateDict := by
  refine ⟨rfl, ?_⟩
  intro e he
  have : e = MainEvent.loadConfig ∨ e = MainEvent.initModel ∨
      e = MainEvent.listCheckpointDirs ∨
      e = MainEvent.raiseNotFound "No checkpoint directories found" := by
    simpa [mainTrace] using he
  rcases this with rfl | rfl | rfl | rfl <;> exact ⟨rfl, rfl, rfl, by decide⟩

theorem npMax_three (a b c : ℚ) : npMax [a, b, c] = max a (max b c) := by
  simp [npMax, max_assoc]

/-- C7: both subplots get the same cubic bounding box (lines 53-71):
`max_range` equals half the largest of the three per-axis spans, and each
axis's limits are its midpoint plus/minus `max_range`; for coordinate
ranges `X:[0,2]`, `Y:[0,4]`, `Z:[0,1]` (points `(0,0,0)` and `(2,4,1)`),
`max_range = 2` and each axis is centered at its midpoint. -/
theorem claim_C7 (points : List (ℚ × ℚ × ℚ)) (_h : points ≠ []) :
    (figureAxes points).1 = (figureAxes points).2 ∧
    max_range points =
      (max (npMax (colX points) - npMin (colX points))
        (max (npMax (colY points) - npMin (colY points))
             (npMax (colZ points) - npMin (colZ points)))) / 2 ∧
    (figureAxes points).1 =
      { xlim := (mid_x points - max_range points, mid_x points + max_range points)
        ylim := (mid_y points - max_range points, mid_y points + max_range points)
        zlim := (mid_z points - max_range points, mid_z points + max_range points) } ∧
    max_range [((0 : ℚ), (0 : ℚ), (0 : ℚ)), (2, 4, 1)] = 2 ∧
    setAxisLimits [((0 : ℚ), (0 : ℚ), (0 : ℚ)), (2, 4, 1)] =
      { xlim := (-1, 3), ylim := (0, 4), zlim := (-3/2, 5/2) } := by
  refine ⟨rfl, ?_, rfl, ?_, ?_⟩
  · rw [max_range, npMax_three]
  · norm_num [max_range, npMax, npMin, colX, colY, colZ]
  · norm_num [setAxisLimits, mid_x, mid_y, mid_z, max_range, npMax, npMin,
      colX, colY, colZ, AxisLimits.mk.injEq, Prod.ext_iff]

/-- Witness for C7 at the two-point sample `[(0,0,0), (2,4,1)]`. -/
theorem claim_C7_witness :
    (figureAxes [((0 : ℚ), (0 : ℚ), (0 : ℚ)), (2, 4, 1)]).1 =
      (figureAxes [((0 : ℚ), (0 : ℚ), (0 : ℚ)), (2, 4, 1)]).2 ∧
    max_range [((0 : ℚ), (0 : ℚ), (0 : ℚ)), (2, 4, 1)] =
      (max (npMax (colX [((0 : ℚ), (0 : ℚ), (0 : ℚ)), (2, 4, 1)]) -
            npMin (colX [((0 : ℚ), (0 : ℚ), (0 : ℚ)), (2, 4, 1)]))
        (max (npMax (colY [((0 : ℚ), (0 : ℚ), (0 : ℚ)), (2, 4, 1)]) -
              npMin (colY [((0 : ℚ), (0 : ℚ), (0 : ℚ)), (2, 4, 1)]))
             (npMax (colZ [((0 : ℚ), (0 : ℚ), (0 : ℚ)), (2, 4, 1)]) -
              npMin (colZ [((0 : ℚ), (0 : ℚ), (0 : ℚ)), (2, 4, 1)])))) / 2 ∧
    (figureAxes [((0 : ℚ), (0 : ℚ), (0 : ℚ)), (2, 4, 1)]).1 =
      { xlim := (mid_x [((0 : ℚ), (0 : ℚ), (0 : ℚ)), (2, 4, 1)] -
                   max_range [((0 : ℚ), (0 : ℚ), (0 : ℚ)), (2, 4, 1)],
                 mid_x [((0 : ℚ), (0 : ℚ), (0 : ℚ)), (2, 4, 1)] +
                   max_range [((0 : ℚ), (0 : ℚ), (0 : ℚ)), (2, 4, 1)])
        ylim := (mid_y [((0 : ℚ), (0 : ℚ), (0 : ℚ)), (2, 4, 1)] -
                   max_range [((0 : ℚ), (0 : ℚ), (0 : ℚ)), (2, 4, 1)],
                 mid_y [((0 : ℚ), (0 : ℚ), (0 : ℚ)), (2, 4, 1)] +
                   max_range [((0 : ℚ), (0 : ℚ), (0 : ℚ)), (2, 4, 1)])
        zlim := (mid_z [((0 : ℚ), (0 : ℚ), (0 : ℚ)), (2, 4, 1)] -
                   max_range [((0 : ℚ), (0 : ℚ), (0 : ℚ)), (2, 4, 1)],
                 mid_z [((0 : ℚ), (0 : ℚ), (0 : ℚ)), (2, 4, 1)] +
                   max_range [((0 : ℚ), (0 : ℚ), (0 : ℚ)), (2, 4, 1)]) } ∧
    max_range [((0 : ℚ), (0 : ℚ), (0 : ℚ)), (2, 4, 1)] = 2 ∧
    setAxisLimits [((0 : ℚ), (0 : ℚ), (0 : ℚ)), (2, 4, 1)] =
      { xlim := (-1, 3), ylim := (0, 4), zlim := (-3/2, 5/2) } :=
  claim_C7 [((0 : ℚ), (0 : ℚ), (0 : ℚ)), (2, 4, 1)] (by decide)

/-- Counterexample for C8 as stated: with the save path `some ""` given,
`if save_path:` is falsy in Python, so no file is written at all — the
trace of lines 77-82 contains no `savefig` event. -/
theorem claim_C8_counterexample :
    plotTail (some "") = [PlotEvent.tightLayout, PlotEvent.showPlot] ∧
    (plotTail (some "")).all (fun e => !e.isSavefig) = true := by decide

/-- C8 (amended): with a non-empty save path given, the figure is written
to that path at 300 dpi with a tight bounding box before `plt.show()`;
with no save path (or the falsy empty string), no file is written and the
display still occurs (lines 79-82). -/
theorem claim_C8 (save_path : Option String) :
    (∀ p, save_path = some p → p ≠ "" →
      plotTail save_path =
        [PlotEvent.tightLayout, PlotEvent.savefig p 300 true, PlotEvent.showPlot]) ∧
    (save_path = none ∨ save_path = some "" →
      plotTail save_path = [PlotEvent.tightLayout, PlotEvent.showPlot] ∧
      ∀ e ∈ plotTail save_path, e.isSavefig = false) := by
  constructor
  · rintro p rfl hp
    simp [plotTail, hp]
  · rintro (rfl | rfl)
    · exact ⟨rfl, by decide⟩
    · exact ⟨by decide, by decide⟩

/-- Witness for C8 at `save_path = some "out.png"` and `save_path = none`. -/
theorem claim_C8_witness :
    plotTail (some "out.png") =
      [PlotEvent.tightLayout, PlotEvent.savefig "out.png" 300 true, PlotEvent.showPlot] ∧
    (plotTail none = [PlotEvent.tightLayout, PlotEvent.showPlot] ∧
      ∀ e ∈ plotTail none, e.isSavefig = false) :=
  ⟨(claim_C8 (some "out.png")).1 "out.png" rfl (by decide),
   (claim_C8 none).2 (Or.inl rfl)⟩

/-- C2: the inference routine computes each point's predicted class by
applying softmax over the class dimension (dim 1) of the model's logits
and then taking the per-point argmax of the resulting probabilities
(lines 17-18): `pred_classes` refines the spec-side description
`specPredClass`. -/
theorem claim_C2 {n k : ℕ} (outputs : Fin n → Fin k → ℝ) (p : Fin n) :
    pred_classes outputs p = specPredClass outputs p := rfl

theorem argmaxAux_map {α β : Type} [LinearOrder α] [LinearOrder β]
    (g : α → β) (hg : StrictMono g) (l : List α) :
    ∀ (b : ℕ × α) (i : ℕ), argmaxAux (l.map g) (b.1, g b.2) i = argmaxAux l b i := by
  induction l with
  | nil => intro b i; rfl
  | cons a t ih =>
    intro b i
    simp only [List.map_cons, argmaxAux]
    by_cases hab : b.2 < a
    · rw [if_pos (hg.lt_iff_lt.2 hab), if_pos hab]
      exact ih (i, a) (i + 1)
    · rw [if_neg (fun hc => hab (hg.lt_iff_lt.1 hc)), if_neg hab]
      exact ih b (i + 1)

theorem argmaxList_map {α β : Type} [LinearOrder α] [LinearOrder β]
    (g : α → β) (hg : StrictMono g) (l : List α) :
    argmaxList (l.map g) = argmaxList l := by
  cases l with
  | nil => rfl
  | cons a t =>
    simp only [List.map_cons, argmaxList]
    exact argmaxAux_map g hg t (0, a) 1

/-- C9: per point, the softmax step never changes the argmax — dividing
the exponentials by the (positive) row sum is strictly monotone, so the
argmax of `softmax(outputs, dim=1)` equals the argmax of the raw logits. -/
theorem claim_C9 {n k : ℕ} (outputs : Fin n → Fin k → ℝ) :
    pred_classes outputs = argmaxDim1 outputs := by
  funext p
  show argmaxRow (softmaxDim1 outputs p) = argmaxRow (outputs p)
  cases k with
  | zero =>
    unfold argmaxRow
    rw [List.ofFn_zero, List.ofFn_zero]
  | succ m =>
    have hS : (0 : ℝ) < ∑ j, Real.exp (outputs p j) :=
      Finset.sum_pos (fun j _ => Real.exp_pos _) Finset.univ_nonempty
    have hg : StrictMono (fun y : ℝ => Real.exp y / ∑ j, Real.exp (outputs p j)) := by
      intro a b hab
      have := mul_lt_mul_of_pos_right (Real.exp_lt_exp.2 hab) (inv_pos.2 hS)
      simpa [div_eq_mul_inv] using this
    unfold argmaxRow softmaxDim1
    have heq : (List.ofFn fun c => Real.exp (outputs p c) / ∑ j, Real.exp (outputs p j)) =
        (List.ofFn (outputs p)).map
          (fun y => Real.exp y / ∑ j, Real.exp (outputs p j)) := by
      rw [List.map_ofFn]
      rfl
    rw [heq, argmaxList_map _ hg]

end VisualizePredictions
